import Mathlib

/-!
Verification of the unit-converter application (src/app.py).

The app consists of a static conversion table keyed by strings of the form
`from_unit ++ "_" ++ to_unit`, a table resolver `manual_conversion`, a fallback
client `gemini_conversion` that sends a prompt to a remote text-generation
service, and a button handler that composes them and renders messages to the
user.

Modelling choices:
* Python floats are modelled as exact rationals (`ℚ`); the decimal literals of
  the source are read as the exact decimal values they denote.
* A table rule is either a scalar factor or a callable; the four temperature
  lambdas are carried as Lean functions `ℚ → ℚ`.
* The remote generation client is an explicit parameter
  `client : String → Except String String`: `Except.ok text` models a response
  whose `.text` attribute is `text`, and `Except.error e` models a raised
  exception rendered as `e`.
* Python `str.strip` is modelled by `pyStrip`, which removes ASCII whitespace
  from both ends of the character list; Python string truthiness
  (`if gemini_result:`) is modelled as being neither `none` nor the empty
  string.
* The Streamlit calls `st.success` / `st.warning` / `st.error` are modelled as
  an ordered list of `Msg` values, and the invocations of `manual_conversion`
  and of the generation client as an ordered list of `Call` values; the button
  handler returns both lists.
-/

/-- A value of the `conversion_factors` dictionary: either a numeric factor
(the `value * factor` branch of the source) or a callable
(the `factor(value)` branch). -/
inductive Rule where
  | factor (f : ℚ)
  | func (f : ℚ → ℚ)

/-- The `conversion_factors` dictionary of `manual_conversion`
(src/app.py lines 63-112), in source order. -/
def conversion_factors : List (String × Rule) :=
  [ ("Meters_Kilometers", .factor 0.001),
    ("Kilometers_Meters", .factor 1000),
    ("Miles_Kilometers", .factor 1.60934),
    ("Kilometers_Miles", .factor (1 / 1.60934)),
    ("Feet_Meters", .factor 0.3048),
    ("Meters_Feet", .factor (1 / 0.3048)),
    ("Inches_Feet", .factor (1 / 12)),
    ("Feet_Inches", .factor 12),
    ("Yards_Meters", .factor 0.9144),
    ("Meters_Yards", .factor (1 / 0.9144)),
    ("Kilograms_Grams", .factor 1000),
    ("Grams_Kilograms", .factor (1 / 1000)),
    ("Kilograms_Pounds", .factor 2.20462),
    ("Pounds_Kilograms", .factor (1 / 2.20462)),
    ("Ounces_Grams", .factor 28.3495),
    ("Grams_Ounces", .factor (1 / 28.3495)),
    ("Celsius_Fahrenheit", .func (fun x => (x * 9 / 5) + 32)),
    ("Fahrenheit_Celsius", .func (fun x => (x - 32) * 5 / 9)),
    ("Celsius_Kelvin", .func (fun x => x + 273.15)),
    ("Kelvin_Celsius", .func (fun x => x - 273.15)),
    ("Meters per second_Kilometers per hour", .factor 3.6),
    ("Kilometers per hour_Meters per second", .factor (1 / 3.6)),
    ("Miles per hour_Kilometers per hour", .factor 1.60934),
    ("Kilometers per hour_Miles per hour", .factor (1 / 1.60934)),
    ("Seconds_Minutes", .factor (1 / 60)),
    ("Minutes_Seconds", .factor 60),
    ("Minutes_Hours", .factor (1 / 60)),
    ("Hours_Minutes", .factor 60),
    ("Hours_Days", .factor (1 / 24)),
    ("Days_Hours", .factor 24),
    ("Weeks_Days", .factor 7),
    ("Days_Weeks", .factor (1 / 7)),
    ("Square meters_Square kilometers", .factor (1 / 1e6)),
    ("Square kilometers_Square meters", .factor 1e6),
    ("Square feet_Square meters", .factor 0.092903),
    ("Square meters_Square feet", .factor (1 / 0.092903)),
    ("Acres_Square meters", .factor 4046.86),
    ("Square meters_Acres", .factor (1 / 4046.86)),
    ("Hectares_Square meters", .factor 10000),
    ("Square meters_Hectares", .factor (1 / 10000)),
    ("Square miles_Square kilometers", .factor 2.58999),
    ("Square kilometers_Square miles", .factor (1 / 2.58999)),
    ("Liters_Milliliters", .factor 1000),
    ("Milliliters_Liters", .factor (1 / 1000)),
    ("Liters_Gallons", .factor 0.264172),
    ("Gallons_Liters", .factor (1 / 0.264172)),
    ("Liters_Cubic meters", .factor 0.001),
    ("Cubic meters_Liters", .factor 1000) ]

/-- `manual_conversion` (src/app.py lines 62-118): build the key
`f"{from_unit}_{to_unit}"`, look it up, apply the rule
(`factor(value) if callable(factor) else value * factor`), and return `None`
on a miss. -/
def manual_conversion (value : ℚ) (from_unit to_unit : String) : Option ℚ :=
  match conversion_factors.lookup (from_unit ++ "_" ++ to_unit) with
  | some (Rule.factor f) => some (value * f)
  | some (Rule.func f) => some (f value)
  | none => none

/-- One rendered Streamlit message: `st.success`, `st.warning` or `st.error`. -/
inductive Msg where
  | success (s : String)
  | warning (s : String)
  | error (s : String)
deriving DecidableEq

/-- One invocation performed by the button handler: a call of the table
resolver, or a call of the remote generation client with its prompt. -/
inductive Call where
  | manual (value : ℚ) (from_unit to_unit : String)
  | gemini (prompt : String)
deriving DecidableEq

/-- Recognizes the fallback-client invocations in a call trace. -/
def isGeminiCall : Call → Bool
  | Call.gemini _ => true
  | _ => false

/-- ASCII whitespace, as removed by Python `str.strip`. -/
def isPySpace (c : Char) : Bool :=
  c = ' ' || c = '\t' || c = '\n' || c = '\r' || c = '\x0b' || c = '\x0c'

/-- Python `str.strip()`: drop whitespace from both ends of the string. -/
def pyStrip (s : String) : String :=
  ⟨((s.data.dropWhile isPySpace).reverse.dropWhile isPySpace).reverse⟩

/-- The prompt built by `gemini_conversion` (src/app.py line 123):
`f"Convert {value} {from_unit} to {to_unit}. Provide only the numerical result."`. -/
def gemini_prompt (value : ℚ) (from_unit to_unit : String) : String :=
  "Convert " ++ toString value ++ " " ++ from_unit ++ " to " ++ to_unit ++
    ". Provide only the numerical result."

/-- `gemini_conversion` (src/app.py lines 121-129): send the prompt to the
generation client; on success return the stripped response text, on an
exception render `st.error(f"Gemini AI Error: {e}")` and return `None`. -/
def gemini_conversion (value : ℚ) (from_unit to_unit : String)
    (client : String → Except String String) : Option String × List Msg :=
  match client (gemini_prompt value from_unit to_unit) with
  | Except.ok text => (some (pyStrip text), [])
  | Except.error e => (none, [Msg.error ("Gemini AI Error: " ++ e)])

/-- Round a rational to the nearest integer, ties to even (the rounding used
by fixed-point formatting of the underlying value). -/
def roundHalfEven (q : ℚ) : ℤ :=
  if q - (q.floor : ℚ) < 1 / 2 then q.floor
  else if 1 / 2 < q - (q.floor : ℚ) then q.floor + 1
  else if q.floor % 2 = 0 then q.floor else q.floor + 1

/-- The Python format `f"{x:.2f}"`: the value rounded to two decimal places. -/
def format2 (q : ℚ) : String :=
  (if roundHalfEven (q * 100) < 0 then "-" else "") ++
    toString ((roundHalfEven (q * 100)).natAbs / 100) ++ "." ++
    (if (roundHalfEven (q * 100)).natAbs % 100 < 10 then "0" else "") ++
    toString ((roundHalfEven (q * 100)).natAbs % 100)

/-- The convert-button handler (src/app.py lines 132-145): reject identical
units with a warning; otherwise try `manual_conversion` and on a hit render
`st.success(f"Manual Conversion: {manual_result:.2f} {to_unit}")`; on a miss
warn, call `gemini_conversion`, and render its truthy result as
`st.success(f"Gemini AI Conversion: {gemini_result} {to_unit}")`, else
`st.error("Conversion failed. Please try again.")`.
Returns the rendered messages and the trace of resolver/client calls. -/
def convert_button (value : ℚ) (from_unit to_unit : String)
    (client : String → Except String String) : List Msg × List Call :=
  if from_unit ≠ to_unit then
    match manual_conversion value from_unit to_unit with
    | some r =>
        ([Msg.success ("Manual Conversion: " ++ format2 r ++ " " ++ to_unit)],
         [Call.manual value from_unit to_unit])
    | none =>
        match gemini_conversion value from_unit to_unit client with
        | (some s, msgs) =>
            if s ≠ "" then
              ([Msg.warning "Manual conversion not available. Using Gemini AI..."]
                ++ msgs
                ++ [Msg.success ("Gemini AI Conversion: " ++ s ++ " " ++ to_unit)],
               [Call.manual value from_unit to_unit,
                Call.gemini (gemini_prompt value from_unit to_unit)])
            else
              ([Msg.warning "Manual conversion not available. Using Gemini AI..."]
                ++ msgs
                ++ [Msg.error "Conversion failed. Please try again."],
               [Call.manual value from_unit to_unit,
                Call.gemini (gemini_prompt value from_unit to_unit)])
        | (none, msgs) =>
            ([Msg.warning "Manual conversion not available. Using Gemini AI..."]
              ++ msgs
              ++ [Msg.error "Conversion failed. Please try again."],
             [Call.manual value from_unit to_unit,
              Call.gemini (gemini_prompt value from_unit to_unit)])
  else
    ([Msg.warning "Please select different units."], [])

/-- Split a character list at its first underscore. -/
def splitAtUnderscore : List Char → Option (List Char × List Char)
  | [] => none
  | c :: cs =>
    if c = '_' then some ([], cs)
    else
      match splitAtUnderscore cs with
      | some (a, b) => some (c :: a, b)
      | none => none

/-- Swap the two unit names of a table key: the key of the inverse entry.
Unit names contain no underscore, so splitting at the first underscore
recovers the ordered pair. -/
def reverseKey (k : String) : String :=
  match splitAtUnderscore k.data with
  | some (a, b) => ⟨b ++ '_' :: a⟩
  | none => k

/-- A successful association-list lookup yields a member of the list. -/
theorem mem_of_lookup_eq_some {β : Type} {l : List (String × β)} {k : String}
    {r : β} (h : l.lookup k = some r) : (k, r) ∈ l := by
  induction l with
  | nil => simp [List.lookup] at h
  | cons p t ih =>
    obtain ⟨a, b⟩ := p
    rw [List.lookup] at h
    cases hk : k == a <;> rw [hk] at h
    · exact List.mem_cons_of_mem _ (ih h)
    · obtain rfl : a = k := (eq_of_beq hk).symm
      obtain rfl : b = r := by simpa using h
      exact List.mem_cons_self _ _


theorem lookup_rev_01 : conversion_factors.lookup (reverseKey "Meters_Kilometers")
    = some (Rule.factor 1000) := rfl

theorem lookup_rev_02 : conversion_factors.lookup (reverseKey "Kilometers_Meters")
    = some (Rule.factor 0.001) := rfl

theorem lookup_rev_03 : conversion_factors.lookup (reverseKey "Miles_Kilometers")
    = some (Rule.factor (1 / 1.60934)) := rfl

theorem lookup_rev_04 : conversion_factors.lookup (reverseKey "Kilometers_Miles")
    = some (Rule.factor 1.60934) := rfl

theorem lookup_rev_05 : conversion_factors.lookup (reverseKey "Feet_Meters")
    = some (Rule.factor (1 / 0.3048)) := rfl

theorem lookup_rev_06 : conversion_factors.lookup (reverseKey "Meters_Feet")
    = some (Rule.factor 0.3048) := rfl

theorem lookup_rev_07 : conversion_factors.lookup (reverseKey "Inches_Feet")
    = some (Rule.factor 12) := rfl

theorem lookup_rev_08 : conversion_factors.lookup (reverseKey "Feet_Inches")
    = some (Rule.factor (1 / 12)) := rfl

theorem lookup_rev_09 : conversion_factors.lookup (reverseKey "Yards_Meters")
    = some (Rule.factor (1 / 0.9144)) := rfl

theorem lookup_rev_10 : conversion_factors.lookup (reverseKey "Meters_Yards")
    = some (Rule.factor 0.9144) := rfl

theorem lookup_rev_11 : conversion_factors.lookup (reverseKey "Kilograms_Grams")
    = some (Rule.factor (1 / 1000)) := rfl

theorem lookup_rev_12 : conversion_factors.lookup (reverseKey "Grams_Kilograms")
    = some (Rule.factor 1000) := rfl

theorem lookup_rev_13 : conversion_factors.lookup (reverseKey "Kilograms_Pounds")
    = some (Rule.factor (1 / 2.20462)) := rfl

theorem lookup_rev_14 : conversion_factors.lookup (reverseKey "Pounds_Kilograms")
    = some (Rule.factor 2.20462) := rfl

theorem lookup_rev_15 : conversion_factors.lookup (reverseKey "Ounces_Grams")
    = some (Rule.factor (1 / 28.3495)) := rfl

theorem lookup_rev_16 : conversion_factors.lookup (reverseKey "Grams_Ounces")
    = some (Rule.factor 28.3495) := rfl

theorem lookup_rev_21 : conversion_factors.lookup (reverseKey "Meters per second_Kilometers per hour")
    = some (Rule.factor (1 / 3.6)) := rfl

theorem lookup_rev_22 : conversion_factors.lookup (reverseKey "Kilometers per hour_Meters per second")
    = some (Rule.factor 3.6) := rfl

theorem lookup_rev_23 : conversion_factors.lookup (reverseKey "Miles per hour_Kilometers per hour")
    = some (Rule.factor (1 / 1.60934)) := rfl

theorem lookup_rev_24 : conversion_factors.lookup (reverseKey "Kilometers per hour_Miles per hour")
    = some (Rule.factor 1.60934) := rfl

theorem lookup_rev_25 : conversion_factors.lookup (reverseKey "Seconds_Minutes")
    = some (Rule.factor 60) := rfl

theorem lookup_rev_26 : conversion_factors.lookup (reverseKey "Minutes_Seconds")
    = some (Rule.factor (1 / 60)) := rfl

theorem lookup_rev_27 : conversion_factors.lookup (reverseKey "Minutes_Hours")
    = some (Rule.factor 60) := rfl

theorem lookup_rev_28 : conversion_factors.lookup (reverseKey "Hours_Minutes")
    = some (Rule.factor (1 / 60)) := rfl

theorem lookup_rev_29 : conversion_factors.lookup (reverseKey "Hours_Days")
    = some (Rule.factor 24) := rfl

theorem lookup_rev_30 : conversion_factors.lookup (reverseKey "Days_Hours")
    = some (Rule.factor (1 / 24)) := rfl

theorem lookup_rev_31 : conversion_factors.lookup (reverseKey "Weeks_Days")
    = some (Rule.factor (1 / 7)) := rfl

theorem lookup_rev_32 : conversion_factors.lookup (reverseKey "Days_Weeks")
    = some (Rule.factor 7) := rfl

theorem lookup_rev_33 : conversion_factors.lookup (reverseKey "Square meters_Square kilometers")
    = some (Rule.factor 1e6) := rfl

theorem lookup_rev_34 : conversion_factors.lookup (reverseKey "Square kilometers_Square meters")
    = some (Rule.factor (1 / 1e6)) := rfl

theorem lookup_rev_35 : conversion_factors.lookup (reverseKey "Square feet_Square meters")
    = some (Rule.factor (1 / 0.092903)) := rfl

theorem lookup_rev_36 : conversion_factors.lookup (reverseKey "Square meters_Square feet")
    = some (Rule.factor 0.092903) := rfl

theorem lookup_rev_37 : conversion_factors.lookup (reverseKey "Acres_Square meters")
    = some (Rule.factor (1 / 4046.86)) := rfl

theorem lookup_rev_38 : conversion_factors.lookup (reverseKey "Square meters_Acres")
    = some (Rule.factor 4046.86) := rfl

theorem lookup_rev_39 : conversion_factors.lookup (reverseKey "Hectares_Square meters")
    = some (Rule.factor (1 / 10000)) := rfl

theorem lookup_rev_40 : conversion_factors.lookup (reverseKey "Square meters_Hectares")
    = some (Rule.factor 10000) := rfl

theorem lookup_rev_41 : conversion_factors.lookup (reverseKey "Square miles_Square kilometers")
    = some (Rule.factor (1 / 2.58999)) := rfl

theorem lookup_rev_42 : conversion_factors.lookup (reverseKey "Square kilometers_Square miles")
    = some (Rule.factor 2.58999) := rfl

theorem lookup_rev_43 : conversion_factors.lookup (reverseKey "Liters_Milliliters")
    = some (Rule.factor (1 / 1000)) := rfl

theorem lookup_rev_44 : conversion_factors.lookup (reverseKey "Milliliters_Liters")
    = some (Rule.factor 1000) := rfl

theorem lookup_rev_45 : conversion_factors.lookup (reverseKey "Liters_Gallons")
    = some (Rule.factor (1 / 0.264172)) := rfl

theorem lookup_rev_46 : conversion_factors.lookup (reverseKey "Gallons_Liters")
    = some (Rule.factor 0.264172) := rfl

theorem lookup_rev_47 : conversion_factors.lookup (reverseKey "Liters_Cubic meters")
    = some (Rule.factor 1000) := rfl

theorem lookup_rev_48 : conversion_factors.lookup (reverseKey "Cubic meters_Liters")
    = some (Rule.factor 0.001) := rfl

/-- The table entry for Celsius to Fahrenheit. -/
theorem lookup_CF : conversion_factors.lookup ("Celsius" ++ "_" ++ "Fahrenheit")
    = some (Rule.func (fun x => (x * 9 / 5) + 32)) := rfl

/-- The table entry for Fahrenheit to Celsius. -/
theorem lookup_FC : conversion_factors.lookup ("Fahrenheit" ++ "_" ++ "Celsius")
    = some (Rule.func (fun x => (x - 32) * 5 / 9)) := rfl

/-- The table entry for Celsius to Kelvin. -/
theorem lookup_CK : conversion_factors.lookup ("Celsius" ++ "_" ++ "Kelvin")
    = some (Rule.func (fun x => x + 273.15)) := rfl

/-- The table entry for Kelvin to Celsius. -/
theorem lookup_KC : conversion_factors.lookup ("Kelvin" ++ "_" ++ "Celsius")
    = some (Rule.func (fun x => x - 273.15)) := rfl

/-- Claim C1: `manual_conversion` joins the two unit names with the fixed
separator `"_"`; on a hit it returns the value times the stored factor, or the
stored function applied to the value; on a miss it returns `none`. -/
theorem manual_conversion_spec (v : ℚ) (fu tu : String) :
    (conversion_factors.lookup (fu ++ "_" ++ tu) = none →
      manual_conversion v fu tu = none) ∧
    (∀ f, conversion_factors.lookup (fu ++ "_" ++ tu) = some (Rule.factor f) →
      manual_conversion v fu tu = some (v * f)) ∧
    (∀ g, conversion_factors.lookup (fu ++ "_" ++ tu) = some (Rule.func g) →
      manual_conversion v fu tu = some (g v)) := by
  refine ⟨fun h => ?_, fun f h => ?_, fun g h => ?_⟩ <;>
    simp [manual_conversion, h]

/-- Witness for C1: a scalar hit and a miss, at concrete inputs. -/
theorem manual_conversion_spec_witness :
    conversion_factors.lookup ("Meters" ++ "_" ++ "Kilometers")
        = some (Rule.factor 0.001) ∧
    manual_conversion 5 "Meters" "Kilometers" = some (5 * 0.001) ∧
    conversion_factors.lookup ("Feet" ++ "_" ++ "Yards") = none ∧
    manual_conversion 7 "Feet" "Yards" = none :=
  ⟨rfl, (manual_conversion_spec 5 "Meters" "Kilometers").2.1 0.001 rfl, rfl,
    (manual_conversion_spec 7 "Feet" "Yards").1 rfl⟩

/-- Claim C3: the temperature rules hit the standard points: 0 °C is 32 °F,
100 °C is 212 °F, and 0 °C is 273.15 K. -/
theorem temperature_points :
    manual_conversion 0 "Celsius" "Fahrenheit" = some 32 ∧
    manual_conversion 100 "Celsius" "Fahrenheit" = some 212 ∧
    manual_conversion 0 "Celsius" "Kelvin" = some 273.15 := by
  refine ⟨?_, ?_, ?_⟩
  · simp only [manual_conversion, lookup_CF, Option.some.injEq]; norm_num
  · simp only [manual_conversion, lookup_CF, Option.some.injEq]; norm_num
  · simp only [manual_conversion, lookup_CK, Option.some.injEq]; norm_num

/-- Claim C4: whenever both an entry with scalar factor `f` and the entry for
the swapped unit pair with scalar factor `g` are in the table, applying `f`
and then `g` returns the original value; the product of the stored rationals
is exactly 1, so the round trip is exact (hence within any floating-point
tolerance). -/
theorem scalar_roundtrip (k : String) (f g v : ℚ)
    (h1 : conversion_factors.lookup k = some (Rule.factor f))
    (h2 : conversion_factors.lookup (reverseKey k) = some (Rule.factor g)) :
    v * f * g = v := by
  have hm := mem_of_lookup_eq_some h1
  simp only [conversion_factors, List.mem_cons, List.not_mem_nil, or_false,
    Prod.mk.injEq] at hm
  rcases hm with ⟨hk, hf⟩ | ⟨hk, hf⟩ | ⟨hk, hf⟩ | ⟨hk, hf⟩ | ⟨hk, hf⟩ | ⟨hk, hf⟩ | ⟨hk, hf⟩ | ⟨hk, hf⟩ | ⟨hk, hf⟩ | ⟨hk, hf⟩ | ⟨hk, hf⟩ | ⟨hk, hf⟩ | ⟨hk, hf⟩ | ⟨hk, hf⟩ | ⟨hk, hf⟩ | ⟨hk, hf⟩ | ⟨hk, hf⟩ | ⟨hk, hf⟩ | ⟨hk, hf⟩ | ⟨hk, hf⟩ | ⟨hk, hf⟩ | ⟨hk, hf⟩ | ⟨hk, hf⟩ | ⟨hk, hf⟩ | ⟨hk, hf⟩ | ⟨hk, hf⟩ | ⟨hk, hf⟩ | ⟨hk, hf⟩ | ⟨hk, hf⟩ | ⟨hk, hf⟩ | ⟨hk, hf⟩ | ⟨hk, hf⟩ | ⟨hk, hf⟩ | ⟨hk, hf⟩ | ⟨hk, hf⟩ | ⟨hk, hf⟩ | ⟨hk, hf⟩ | ⟨hk, hf⟩ | ⟨hk, hf⟩ | ⟨hk, hf⟩ | ⟨hk, hf⟩ | ⟨hk, hf⟩ | ⟨hk, hf⟩ | ⟨hk, hf⟩ | ⟨hk, hf⟩ | ⟨hk, hf⟩ | ⟨hk, hf⟩ | ⟨hk, hf⟩ <;>
    subst hk <;>
    first
      | exact Rule.noConfusion hf
      | (simp only [Rule.factor.injEq] at hf
         subst hf
         simp only [lookup_rev_01, lookup_rev_02, lookup_rev_03, lookup_rev_04, lookup_rev_05, lookup_rev_06, lookup_rev_07, lookup_rev_08, lookup_rev_09, lookup_rev_10, lookup_rev_11, lookup_rev_12, lookup_rev_13, lookup_rev_14, lookup_rev_15, lookup_rev_16, lookup_rev_21, lookup_rev_22, lookup_rev_23, lookup_rev_24, lookup_rev_25, lookup_rev_26, lookup_rev_27, lookup_rev_28, lookup_rev_29, lookup_rev_30, lookup_rev_31, lookup_rev_32, lookup_rev_33, lookup_rev_34, lookup_rev_35, lookup_rev_36, lookup_rev_37, lookup_rev_38, lookup_rev_39, lookup_rev_40, lookup_rev_41, lookup_rev_42, lookup_rev_43, lookup_rev_44, lookup_rev_45, lookup_rev_46, lookup_rev_47, lookup_rev_48,
           Option.some.injEq, Rule.factor.injEq] at h2
         subst h2
         ring_nf)

/-- Witness for C4: the Meters/Kilometers pair, at value 5. -/
theorem scalar_roundtrip_witness :
    conversion_factors.lookup "Meters_Kilometers" = some (Rule.factor 0.001) ∧
    conversion_factors.lookup (reverseKey "Meters_Kilometers")
        = some (Rule.factor 1000) ∧
    (5 : ℚ) * 0.001 * 1000 = 5 :=
  ⟨rfl, rfl, scalar_roundtrip "Meters_Kilometers" 0.001 1000 5 rfl rfl⟩

/-- Claim C5: when both units are equal the handler reports the warning and
performs no call at all: neither the table resolver nor the fallback client
is invoked. -/
theorem same_unit_rejected (v : ℚ) (u : String)
    (client : String → Except String String) :
    convert_button v u u client
      = ([Msg.warning "Please select different units."], []) := by
  simp [convert_button]

/-- Claim C6: no `Feet_Yards` entry exists and no transitive path is computed,
so resolving `(v, "Feet", "Yards")` returns `none` for every value `v`. -/
theorem feet_yards_absent (v : ℚ) : manual_conversion v "Feet" "Yards" = none :=
  rfl

/-- Claim C8: the table resolver is a total deterministic function: for every
value and every pair of unit-name strings it returns either a number or
`none` (no exception is possible in the embedding), and equal inputs give
equal outputs; the table `conversion_factors` is a closed constant and is
never mutated. -/
theorem manual_conversion_total (v : ℚ) (fu tu : String) :
    ((∃ r, manual_conversion v fu tu = some r) ∨
      manual_conversion v fu tu = none) ∧
    (∀ w gu su, v = w → fu = gu → tu = su →
      manual_conversion v fu tu = manual_conversion w gu su) := by
  constructor
  · rcases h : manual_conversion v fu tu with _ | r
    · exact Or.inr rfl
    · exact Or.inl ⟨r, rfl⟩
  · rintro w gu su rfl rfl rfl
    rfl

/-- Witness for C8: determinism instantiated at a concrete input. -/
theorem manual_conversion_total_witness :
    manual_conversion 3 "Feet" "Meters" = manual_conversion 3 "Feet" "Meters" :=
  (manual_conversion_total 3 "Feet" "Meters").2 3 "Feet" "Meters" rfl rfl rfl

/-- Claim C9: the affine temperature rules are exact mutual inverses over
exact arithmetic: Celsius to Fahrenheit then Fahrenheit to Celsius is the
identity, and likewise Celsius to Kelvin then Kelvin to Celsius. -/
theorem temperature_inverse (v t : ℚ) :
    (manual_conversion v "Celsius" "Fahrenheit" = some t →
      manual_conversion t "Fahrenheit" "Celsius" = some v) ∧
    (manual_conversion v "Celsius" "Kelvin" = some t →
      manual_conversion t "Kelvin" "Celsius" = some v) := by
  constructor
  · intro h
    have h1 : manual_conversion v "Celsius" "Fahrenheit"
        = some ((v * 9 / 5) + 32) := by
      simp only [manual_conversion, lookup_CF]
    rw [h1, Option.some_inj] at h
    subst h
    simp only [manual_conversion, lookup_FC, Option.some.injEq]
    ring
  · intro h
    have h1 : manual_conversion v "Celsius" "Kelvin" = some (v + 273.15) := by
      simp only [manual_conversion, lookup_CK]
    rw [h1, Option.some_inj] at h
    subst h
    simp only [manual_conversion, lookup_KC, Option.some.injEq]
    ring

/-- Witness for C9: 0 °C goes to 32 °F and back to 0 °C. -/
theorem temperature_inverse_witness :
    manual_conversion 0 "Celsius" "Fahrenheit" = some 32 ∧
    manual_conversion 32 "Fahrenheit" "Celsius" = some 0 :=
  ⟨by simp only [manual_conversion, lookup_CF, Option.some.injEq]; norm_num,
    (temperature_inverse 0 32).1
      (by simp only [manual_conversion, lookup_CF, Option.some.injEq]; norm_num)⟩

/-- Claim C2: on a table miss (with distinct units) the fallback client is
invoked exactly once, with a prompt containing the rendered value and both
unit names; and if the client raises, the handler reports
"Conversion failed. Please try again." and renders no success message. -/
theorem table_miss_fallback (v : ℚ) (fu tu : String)
    (client : String → Except String String)
    (hne : fu ≠ tu) (hmiss : manual_conversion v fu tu = none) :
    (convert_button v fu tu client).2.filter isGeminiCall
        = [Call.gemini (gemini_prompt v fu tu)] ∧
    (∃ p q : String, gemini_prompt v fu tu = p ++ toString v ++ q) ∧
    (∃ p q : String, gemini_prompt v fu tu = p ++ fu ++ q) ∧
    (∃ p q : String, gemini_prompt v fu tu = p ++ tu ++ q) ∧
    ∀ e, client (gemini_prompt v fu tu) = Except.error e →
      Msg.error "Conversion failed. Please try again."
          ∈ (convert_button v fu tu client).1 ∧
      ∀ s, Msg.success s ∉ (convert_button v fu tu client).1 := by
  refine ⟨?_,
    ⟨"Convert ",
      " " ++ fu ++ " to " ++ tu ++ ". Provide only the numerical result.",
      by simp [gemini_prompt, String.append_assoc]⟩,
    ⟨"Convert " ++ toString v ++ " ",
      " to " ++ tu ++ ". Provide only the numerical result.",
      by simp [gemini_prompt, String.append_assoc]⟩,
    ⟨"Convert " ++ toString v ++ " " ++ fu ++ " to ",
      ". Provide only the numerical result.",
      by simp [gemini_prompt, String.append_assoc]⟩, ?_⟩
  · cases hc : client (gemini_prompt v fu tu) with
    | ok s =>
      by_cases hs : pyStrip s = "" <;>
        simp [convert_button, gemini_conversion, hne, hmiss, hc, hs, isGeminiCall]
    | error e =>
      simp [convert_button, gemini_conversion, hne, hmiss, hc, isGeminiCall]
  · intro e he
    constructor <;> simp [convert_button, gemini_conversion, hne, hmiss, he]

/-- Witness for C2: a miss on Feet to Yards with a raising client. -/
theorem table_miss_fallback_witness :
    ("Feet" : String) ≠ "Yards" ∧
    manual_conversion 1 "Feet" "Yards" = none ∧
    Msg.error "Conversion failed. Please try again."
      ∈ (convert_button 1 "Feet" "Yards" (fun _ => Except.error "boom")).1 :=
  ⟨by decide, rfl,
    ((table_miss_fallback 1 "Feet" "Yards" (fun _ => Except.error "boom")
        (by decide) rfl).2.2.2.2 "boom" rfl).1⟩

/-- Counterexample for C7: on a fallback hit the displayed string is
`"Gemini AI Conversion: <raw text> <unit>"` (preceded by a warning), not
exactly `"<raw text> <unit>"` as the claim states. -/
theorem output_exact_form_cex :
    (convert_button 1 "Feet" "Yards" (fun _ => Except.ok "0.3048")).1
      = [Msg.warning "Manual conversion not available. Using Gemini AI...",
         Msg.success ("Gemini AI Conversion: " ++ "0.3048" ++ " " ++ "Yards")] ∧
    ("Gemini AI Conversion: " ++ "0.3048" ++ " " ++ "Yards" : String)
        ≠ "0.3048" ++ " " ++ "Yards" := by
  constructor
  · simp [convert_button, gemini_conversion,
      show manual_conversion 1 "Feet" "Yards" = none from rfl,
      show pyStrip "0.3048" = "0.3048" from rfl]
  · decide

/-- Claim C7 (amended): each displayed result string is the result followed by
the target unit label, prefixed by a source label: a table hit renders
`"Manual Conversion: <rounded> <unit>"`; a fallback hit renders a warning and
then `"Gemini AI Conversion: <raw text> <unit>"`; otherwise a failure notice
is rendered. -/
theorem output_format (v : ℚ) (fu tu : String)
    (client : String → Except String String) (hne : fu ≠ tu) :
    (∀ r, manual_conversion v fu tu = some r →
      (convert_button v fu tu client).1
        = [Msg.success ("Manual Conversion: " ++ format2 r ++ " " ++ tu)]) ∧
    (manual_conversion v fu tu = none →
      (∀ s, client (gemini_prompt v fu tu) = Except.ok s → pyStrip s ≠ "" →
        (convert_button v fu tu client).1
          = [Msg.warning "Manual conversion not available. Using Gemini AI...",
             Msg.success ("Gemini AI Conversion: " ++ pyStrip s ++ " " ++ tu)]) ∧
      (∀ s, client (gemini_prompt v fu tu) = Except.ok s → pyStrip s = "" →
        (convert_button v fu tu client).1
          = [Msg.warning "Manual conversion not available. Using Gemini AI...",
             Msg.error "Conversion failed. Please try again."]) ∧
      (∀ e, client (gemini_prompt v fu tu) = Except.error e →
        (convert_button v fu tu client).1
          = [Msg.warning "Manual conversion not available. Using Gemini AI...",
             Msg.error ("Gemini AI Error: " ++ e),
             Msg.error "Conversion failed. Please try again."])) := by
  refine ⟨fun r hr => ?_,
    fun hmiss => ⟨fun s hs hs2 => ?_, fun s hs hs2 => ?_, fun e he => ?_⟩⟩ <;>
    simp [convert_button, gemini_conversion, hne, *]

/-- Witness for C7 (amended): a table hit at a concrete input. -/
theorem output_format_witness :
    ("Meters" : String) ≠ "Kilometers" ∧
    manual_conversion 1 "Meters" "Kilometers" = some (1 * 0.001) ∧
    (convert_button 1 "Meters" "Kilometers" (fun _ => Except.error "x")).1
      = [Msg.success
          ("Manual Conversion: " ++ format2 (1 * 0.001) ++ " " ++ "Kilometers")] :=
  ⟨by decide, rfl,
    (output_format 1 "Meters" "Kilometers" (fun _ => Except.error "x")
        (by decide)).1 (1 * 0.001) rfl⟩

/-- Claim C10: when the fallback client succeeds but its stripped response is
the empty string, the handler reports "Conversion failed. Please try again."
and renders no success message, because it tests the text for truthiness. -/
theorem empty_fallback_failure (v : ℚ) (fu tu : String)
    (client : String → Except String String) (s : String)
    (hne : fu ≠ tu) (hmiss : manual_conversion v fu tu = none)
    (hok : client (gemini_prompt v fu tu) = Except.ok s)
    (hstrip : pyStrip s = "") :
    (convert_button v fu tu client).1
      = [Msg.warning "Manual conversion not available. Using Gemini AI...",
         Msg.error "Conversion failed. Please try again."] ∧
    ∀ t, Msg.success t ∉ (convert_button v fu tu client).1 := by
  constructor <;>
    simp [convert_button, gemini_conversion, hne, hmiss, hok, hstrip]

/-- Witness for C10: a client that returns an empty response text. -/
theorem empty_fallback_failure_witness :
    ("Feet" : String) ≠ "Yards" ∧
    manual_conversion 1 "Feet" "Yards" = none ∧
    pyStrip "" = "" ∧
    (convert_button 1 "Feet" "Yards" (fun _ => Except.ok "")).1
      = [Msg.warning "Manual conversion not available. Using Gemini AI...",
         Msg.error "Conversion failed. Please try again."] :=
  ⟨by decide, rfl, rfl,
    (empty_fallback_failure 1 "Feet" "Yards" (fun _ => Except.ok "") ""
        (by decide) rfl rfl rfl).1⟩
